import Mathlib

/-!
Shallow embedding of the `extremedb` Rust binding crate
(`src/extremedb/src/...`), restricted to the parts needed to settle the
claims about error-code mapping, the SQL value layer (`value.rs`), the
SQL cursor (`data_source.rs`), SQL transactions (`trans.rs`), logical
devices (`device.rs`), the runtime start flag (`runtime.rs`) and
database open/kill (`database.rs`).

Foreign (native engine) behaviour is modelled by passing the outcome of
each native call as an explicit argument; side effects such as native
release calls or heap deallocation are modelled as explicit event lists.
Machine integers are modelled as `Int`/`Nat` with explicit wrapping
(`% 2 ^ 64`) where the Rust code performs an `as` cast that can wrap.
-/

namespace ExtremeDB

/-! ### Status code spaces

From `extremedb_sys/src/core.rs` (`mco_ret`) and
`extremedb_sys/src/sql.rs` (`mcosql_error_code`). -/

/-- Core status code space (`mco_ret::Type = u32`). -/
abbrev McoRetCode := Nat

namespace mco_ret

def MCO_S_OK : McoRetCode := 0

def MCO_E_NOMEM : McoRetCode := 52

def MCO_E_ILLEGAL_PARAM : McoRetCode := 62

end mco_ret

/-- SQL status code space (`status_t = u32`). -/
abbrev McoSqlStatusCode := Nat

namespace mcosql_error_code

def SQL_OK : McoSqlStatusCode := 0

def NO_MORE_ELEMENTS : McoSqlStatusCode := 1

def INVALID_TYPE_CAST : McoSqlStatusCode := 2

def RUNTIME_ERROR : McoSqlStatusCode := 10

end mcosql_error_code

/-- `extremedb::Error` (lib.rs line 203): either a core error wrapping an
`mco_ret` status code, or an SQL error wrapping an `mcosql_error_code`
status code. -/
inductive Error where
  | Core (rc : McoRetCode)
  | Sql (rc : McoSqlStatusCode)
deriving DecidableEq, Repr

/-- `Result<T>` in the crate is `std::result::Result<T, Error>`. -/
abbrev Result (α : Type) := Except Error α

/-- `extremedb::result_from_code` (lib.rs lines 239-244): `Ok(())` on
`MCO_S_OK`, otherwise `Err(Error::Core(..))`. -/
def result_from_code (rc : McoRetCode) : Result Unit :=
  match rc with
  | 0 => Except.ok ()
  | _ => Except.error (Error.Core rc)

/-- `extremedb::sql::result_from_code` (sql.rs lines 283-288): `Ok(())` on
`SQL_OK`, otherwise `Err(Error::Sql(..))`. -/
def sql_result_from_code (rc : McoSqlStatusCode) : Result Unit :=
  match rc with
  | 0 => Except.ok ()
  | _ => Except.error (Error.Sql rc)

/-! ### Numeric (value.rs lines 1371-1428)

Rust `i64` values are modelled as integers in `[-2^63, 2^63)`;
`usize` values as naturals below `2 ^ 64`. The casts `usize as i64`
and `i64 as u64` wrap, which we model explicitly. Rust release-mode
semantics are used for `i64::abs` (wrapping on `i64::MIN`). -/

def i64Min : Int := -(2 ^ 63)

def i64Max : Int := 2 ^ 63 - 1

/-- The wrapping cast of a natural (a `usize` value, already reduced
mod `2 ^ 64`) to `i64`, as performed by Rust `as i64`. -/
def usizeAsI64 (n : Nat) : Int :=
  let m : Nat := n % 2 ^ 64
  if m < 2 ^ 63 then (m : Int) else (m : Int) - 2 ^ 64

/-- The wrapping cast `i64 as u64` (used by `val_scaled.abs() as u64`;
for `v` in the `i64` range this is `v.natAbs` when `v` is the result of
a wrapping `abs`). -/
def i64AbsAsU64 (v : Int) : Nat := v.natAbs % 2 ^ 64

/-- `sql::value::Numeric` (value.rs lines 1371-1374): a scaled `i64`
value plus a `usize` precision. -/
structure Numeric where
  val_scaled : Int
  prec : Nat
deriving DecidableEq, Repr

namespace Numeric

/-- `Numeric::new` (value.rs lines 1392-1398): `Some` iff `prec <= 19`. -/
def new (val_scaled : Int) (prec : Nat) : Option Numeric :=
  if prec ≤ 19 then some ⟨val_scaled, prec⟩ else none

/-- `Numeric::value_scaled` (value.rs lines 1401-1403). -/
def value_scaled (n : Numeric) : Int := n.val_scaled

/-- `Numeric::precision` (value.rs lines 1406-1408). -/
def precision (n : Numeric) : Nat := n.prec

/-- `Numeric::scale` (value.rs lines 1425-1427): `10usize.pow(prec)`.
For `prec <= 19` (guaranteed by the constructor) this fits in `usize`. -/
def scale (n : Numeric) : Nat := 10 ^ n.prec

/-- `Numeric::int_part` (value.rs lines 1411-1413):
`val_scaled / (scale() as i64)` with Rust (truncating) division. The
`as i64` cast wraps when `scale() >= 2 ^ 63` (i.e. when `prec = 19`). -/
def int_part (n : Numeric) : Int :=
  Int.tdiv n.val_scaled (usizeAsI64 n.scale)

/-- `Numeric::fract_part` (value.rs lines 1416-1418):
`(val_scaled.abs() as u64).wrapping_rem(scale() as u64)`. -/
def fract_part (n : Numeric) : Nat :=
  (i64AbsAsU64 n.val_scaled) % (n.scale % 2 ^ 64)

end Numeric

/-! ### Value types and checked casts (value.rs lines 551-641 and 952-978)

A `Value` wraps an opaque native handle; the native call
`mcosql_rs_value_type` reports a raw column-type code which
`Type::from_mco` maps into the `Type` enum. We model a value by its
handle together with the raw type code the native layer reports for it
(the failure path of the native type call itself merely propagates an
error and is orthogonal to the cast logic). -/

/-- `sql::value::Type` (value.rs lines 551-614). -/
inductive SqlType where
  | null | bool | int1 | int2 | int4 | int8
  | uint1 | uint2 | uint4 | uint8
  | real4 | real8 | time | numeric | string | binary
  | array | blob | sequence
deriving DecidableEq, Repr

/-- `Type::from_mco` (value.rs lines 617-640), with the `CT_*` constants
from `extremedb_sys/src/sql.rs` (`mcosql_column_type`). -/
def SqlType.from_mco (v : Nat) : Option SqlType :=
  match v with
  | 0 => some SqlType.null
  | 1 => some SqlType.bool
  | 2 => some SqlType.int1
  | 4 => some SqlType.int2
  | 6 => some SqlType.int4
  | 8 => some SqlType.int8
  | 3 => some SqlType.uint1
  | 5 => some SqlType.uint2
  | 7 => some SqlType.uint4
  | 9 => some SqlType.uint8
  | 10 => some SqlType.real4
  | 11 => some SqlType.real8
  | 12 => some SqlType.time
  | 13 => some SqlType.numeric
  | 15 => some SqlType.string
  | 16 => some SqlType.binary
  | 18 => some SqlType.array
  | 20 => some SqlType.blob
  | 23 => some SqlType.sequence
  | _ => none

/-- `sql::value::Value` (value.rs lines 664-667): an opaque native value
handle, together with the raw column-type code the native layer reports
for it via `mcosql_rs_value_type`. -/
structure Value where
  h : Nat
  tag : Nat
deriving DecidableEq, Repr

/-- `Value::value_type` (value.rs lines 799-805): maps the native code
through `Type::from_mco`, failing with `RUNTIME_ERROR` when the code is
unknown. -/
def Value.value_type (v : Value) : Result SqlType :=
  match SqlType.from_mco v.tag with
  | some t => Except.ok t
  | none => Except.error (Error.Sql mcosql_error_code.RUNTIME_ERROR)

/-- `sql::value::Array` (value.rs lines 1091-1093): `repr(transparent)`
wrapper around the same value. -/
structure ArrayVal where
  val : Value
deriving DecidableEq, Repr

/-- `sql::value::Sequence` (value.rs): `repr(transparent)` wrapper around
the same value. -/
structure SequenceVal where
  val : Value
deriving DecidableEq, Repr

/-- `sql::value::Blob` (value.rs lines 1465-1467): `repr(transparent)`
wrapper around the same value. -/
structure BlobVal where
  val : Value
deriving DecidableEq, Repr

/-- `Value::as_array` (value.rs lines 952-958): succeed (reinterpreting
the same value in place, no data conversion) iff the runtime tag maps to
`Type::Array`; otherwise `INVALID_TYPE_CAST`. A failure of `value_type`
itself is propagated by the `?` operator. -/
def Value.as_array (v : Value) : Result ArrayVal :=
  match v.value_type with
  | Except.error e => Except.error e
  | Except.ok SqlType.array => Except.ok ⟨v⟩
  | Except.ok _ => Except.error (Error.Sql mcosql_error_code.INVALID_TYPE_CAST)

/-- `Value::as_sequence` (value.rs lines 962-968). -/
def Value.as_sequence (v : Value) : Result SequenceVal :=
  match v.value_type with
  | Except.error e => Except.error e
  | Except.ok SqlType.sequence => Except.ok ⟨v⟩
  | Except.ok _ => Except.error (Error.Sql mcosql_error_code.INVALID_TYPE_CAST)

/-- `Value::as_blob` (value.rs lines 972-978). -/
def Value.as_blob (v : Value) : Result BlobVal :=
  match v.value_type with
  | Except.error e => Except.error e
  | Except.ok SqlType.blob => Except.ok ⟨v⟩
  | Except.ok _ => Except.error (Error.Sql mcosql_error_code.INVALID_TYPE_CAST)

/-! ### Value references (value.rs lines 1016-1078)

`Ref` holds a raw `mcosql_rs_value_ref`: an allocator handle pointer and
a value pointer, either of which can be null (modelled as `none`).
Releasing the value through the native allocator is the side effect we
track as an explicit event. -/

/-- A release performed through `mcosql_rs_value_release(alloc, value)`. -/
inductive RefEvent where
  | release (alloc : Nat) (value : Nat)
deriving DecidableEq, Repr

/-- `sql::value::Ref` (value.rs lines 1016-1019): the embedded
`mcosql_rs_value_ref` with its `allocator` and `ref_` pointers. -/
structure ValueRef where
  allocator : Option Nat
  ref_ : Option Nat
deriving DecidableEq, Repr

namespace ValueRef

/-- `Ref::is_null_ref` (value.rs lines 1043-1045). -/
def is_null_ref (r : ValueRef) : Bool := r.ref_.isNone

/-- `Ref::defused_clone` (value.rs lines 1033-1041): same value pointer,
null allocator handle. -/
def defused_clone (r : ValueRef) : ValueRef :=
  { allocator := none, ref_ := r.ref_ }

/-- `Ref::release_value` (value.rs lines 1047-1054): release through the
allocator iff both the value pointer and the allocator handle are
non-null; null the value pointer unconditionally afterwards. -/
def release_value (r : ValueRef) : ValueRef × List RefEvent :=
  let evs :=
    match r.ref_, r.allocator with
    | some v, some a => [RefEvent.release a v]
    | _, _ => []
  ({ r with ref_ := none }, evs)

/-- `impl Drop for Ref` (value.rs lines 1074-1078): drop calls
`release_value`. -/
def drop (r : ValueRef) : ValueRef × List RefEvent :=
  r.release_value

end ValueRef

/-! ### Cursor (data_source.rs lines 212-257)

The native call `mcosql_cursor_move_next(h, &mut rec_h)` is modelled by
its observable outcome: the status code it returns together with the
record handle it stores through the out-pointer when it succeeds
(`none` models a null record pointer). -/

/-- Outcome of one native `mcosql_cursor_move_next` call: the returned
status code, and the record handle written through the out-pointer when
the status is `SQL_OK`. -/
structure MoveNext where
  rc : McoSqlStatusCode
  written : Option Nat
deriving DecidableEq, Repr

/-- `sql::data_source::Cursor` (data_source.rs lines 212-216): the
record-handle field `rec_h` (null modelled as `none`). -/
structure Cursor where
  rec_h : Option Nat
deriving DecidableEq, Repr

namespace Cursor

/-- `Cursor::new` (data_source.rs lines 219-225): `rec_h` starts null. -/
def new : Cursor := ⟨none⟩

/-- `Cursor::advance` (data_source.rs lines 231-245): on `SQL_OK` keep
the record handle the native call wrote and return `Ok(true)`; on
`NO_MORE_ELEMENTS` null the handle and return `Ok(false)`; on any other
code null the handle and return the SQL error. -/
def advance (c : Cursor) (n : MoveNext) : Cursor × Result Bool :=
  if n.rc = mcosql_error_code.SQL_OK then
    (⟨n.written⟩, Except.ok true)
  else if n.rc = mcosql_error_code.NO_MORE_ELEMENTS then
    (⟨none⟩, Except.ok false)
  else
    (⟨none⟩, Except.error (Error.Sql n.rc))

/-- `Cursor::current_record` (data_source.rs lines 251-257): `None` iff
`rec_h` is null, else the record wrapping `rec_h`. -/
def current_record (c : Cursor) : Option Nat :=
  c.rec_h

/-- Run a chronological sequence of `advance` calls. -/
def runAdvances : Cursor → List MoveNext → Cursor
  | c, [] => c
  | c, n :: ns => runAdvances (c.advance n).1 ns

end Cursor

/-- The record handle written by the most recent `advance` call in the
trace that returned `Ok(true)` (i.e. whose native status was `SQL_OK`);
`none` when no advance in the trace returned `Ok(true)`. -/
def mostRecentOkWrite : List MoveNext → Option (Option Nat)
  | [] => none
  | n :: ns =>
    match mostRecentOkWrite ns with
    | some w => some w
    | none => if n.rc = mcosql_error_code.SQL_OK then some n.written else none

/-! ### Transaction (trans.rs lines 86-165)

The native commit/rollback/release calls are the tracked side effects;
their status codes are passed in as parameters. The handle field `h` is
null (`none`) once the transaction has been finalized. -/

/-- Native calls made by `Transaction::finalize` on the transaction
handle. -/
inductive TxEvent where
  | commitNative (h : Option Nat)
  | rollbackNative (h : Option Nat)
  | releaseNative (h : Option Nat)
deriving DecidableEq, Repr

/-- `sql::trans::Transaction` (trans.rs lines 86-89): the native
transaction handle (null modelled as `none`). -/
structure Transaction where
  h : Option Nat
deriving DecidableEq, Repr

namespace Transaction

/-- `Transaction::finalize` (trans.rs lines 138-155): calls the native
commit or rollback on `h`, then replaces `h` with null and releases the
old handle; returns the first non-`SQL_OK` of the two native codes,
mapped through `sql::result_from_code`. `rcOp` is the status of the
native commit/rollback call and `rcRel` of the native release call. -/
def finalize (t : Transaction) (commit : Bool) (rcOp rcRel : McoSqlStatusCode) :
    Transaction × List TxEvent × Result Unit :=
  let evs := [if commit then TxEvent.commitNative t.h else TxEvent.rollbackNative t.h,
              TxEvent.releaseNative t.h]
  let rc := if rcOp ≠ mcosql_error_code.SQL_OK then rcOp else rcRel
  (⟨none⟩, evs, sql_result_from_code rc)

/-- `Transaction::commit` (trans.rs lines 129-131): `finalize(true)`. -/
def commit (t : Transaction) (rcOp rcRel : McoSqlStatusCode) :
    Transaction × List TxEvent × Result Unit :=
  t.finalize true rcOp rcRel

/-- `Transaction::rollback` (trans.rs lines 134-136): `finalize(false)`. -/
def rollback (t : Transaction) (rcOp rcRel : McoSqlStatusCode) :
    Transaction × List TxEvent × Result Unit :=
  t.finalize false rcOp rcRel

/-- `impl Drop for Transaction` (trans.rs lines 158-165): finalize with
`commit = false`, but only when the handle has not already been nulled
by a previous finalize. -/
def drop (t : Transaction) (rcOp rcRel : McoSqlStatusCode) :
    Transaction × List TxEvent :=
  if t.h.isSome then
    let r := t.finalize false rcOp rcRel
    (r.1, r.2.1)
  else
    (t, [])

end Transaction

/-! ### Devices (device.rs lines 79-443)

Names are byte strings (`&str` byte content). A constructor compares the
byte length of the name against the length of the fixed-size `name`
array of the corresponding `bindgen` descriptor (64 bytes for named
memory, 256 for file, 64 for multi-file, 64 for RAID, from
`extremedb_sys/src/core.rs` lines 660-696) and, when it fits, copies the
name into the zero-initialized array with `ptr::copy_nonoverlapping`.

The conventional-memory constructor calls `std::alloc::alloc` (not
`alloc_zeroed`); its outcome is modelled as `none` (null: allocation
failure) or `some bytes` (the `s` uninitialized bytes the allocator
handed back, contents arbitrary). `impl Drop for Device` deallocates
exactly for the `MCO_MEMORY_CONV` kind. -/

namespace mco_dev_type

def MCO_MEMORY_CONV : Nat := 1

def MCO_MEMORY_NAMED : Nat := 2

def MCO_MEMORY_FILE : Nat := 3

def MCO_MEMORY_MULTIFILE : Nat := 4

def MCO_MEMORY_RAID : Nat := 5

end mco_dev_type

/-- Sizes of the fixed `name: [c_char; N]` fields of the `bindgen`
device descriptors (`extremedb_sys/src/core.rs` lines 651-696). -/
def namedNameLen : Nat := 64

def fileNameLen : Nat := 256

def multifileNameLen : Nat := 64

def raidNameLen : Nat := 64

/-- The kind-specific part of `mco_device_t` (the `dev` union), holding
only the fields the Rust constructors fill in. For the conventional
memory device, `mem` is the content of the allocated block behind
`dev.conv.ptr`. -/
inductive DevUnion where
  | conv (mem : List Nat) (flags : Nat)
  | named (name : List Nat) (flags : Nat) (hint : Nat)
  | file (name : List Nat) (flags : Nat)
  | multifile (name : List Nat) (flags : Nat) (segment_size : Nat)
  | raid (name : List Nat) (flags : Nat) (level : Int) (offset : Nat)
deriving DecidableEq, Repr

/-- `device::Device` (device.rs line 273), wrapping `mco_device_t`. -/
structure Device where
  type_ : Nat
  assignment : Nat
  size : Nat
  dev : DevUnion
deriving DecidableEq, Repr

/-- Heap side effects of the device layer. -/
inductive MemEvent where
  | dealloc (size : Nat)
deriving DecidableEq, Repr

namespace Device

/-- `Device::new_mem_conv` (device.rs lines 280-299): allocate `s` bytes
with `std::alloc::alloc` (`alloc` is the allocator outcome: `none` for a
null return, `some bytes` for the block handed back, whose contents the
constructor does not initialize); fail with `MCO_E_NOMEM` on a null
return. -/
def new_mem_conv (a : Nat) (s : Nat) (alloc : Option (List Nat)) :
    Result Device :=
  match alloc with
  | none => Except.error (Error.Core mco_ret.MCO_E_NOMEM)
  | some bytes =>
    Except.ok
      { type_ := mco_dev_type.MCO_MEMORY_CONV
        assignment := a
        size := s
        dev := DevUnion.conv bytes 0 }

/-- `Device::new_mem_named` (device.rs lines 309-339): reject with
`MCO_E_ILLEGAL_PARAM` when `name.len() >= 64`; otherwise copy the name
bytes into the zeroed 64-byte array. -/
def new_mem_named (a : Nat) (s : Nat) (name : List Nat) (flags : Nat)
    (hint : Nat) : Result Device :=
  if namedNameLen ≤ name.length then
    Except.error (Error.Core mco_ret.MCO_E_ILLEGAL_PARAM)
  else
    Except.ok
      { type_ := mco_dev_type.MCO_MEMORY_NAMED
        assignment := a
        size := s
        dev := DevUnion.named
          (name ++ List.replicate (namedNameLen - name.length) 0) flags hint }

/-- `Device::new_file` (device.rs lines 342-361): reject with
`MCO_E_ILLEGAL_PARAM` when `name.len() >= 256`; otherwise copy the name
bytes into the zeroed 256-byte array. -/
def new_file (a : Nat) (flags : Nat) (name : List Nat) : Result Device :=
  if fileNameLen ≤ name.length then
    Except.error (Error.Core mco_ret.MCO_E_ILLEGAL_PARAM)
  else
    Except.ok
      { type_ := mco_dev_type.MCO_MEMORY_FILE
        assignment := a
        size := 0
        dev := DevUnion.file
          (name ++ List.replicate (fileNameLen - name.length) 0) flags }

/-- `Device::new_multifile` (device.rs lines 364-393): reject with
`MCO_E_ILLEGAL_PARAM` when `name.len() >= 64`. -/
def new_multifile (a : Nat) (flags : Nat) (name : List Nat)
    (segment_size : Nat) : Result Device :=
  if multifileNameLen ≤ name.length then
    Except.error (Error.Core mco_ret.MCO_E_ILLEGAL_PARAM)
  else
    Except.ok
      { type_ := mco_dev_type.MCO_MEMORY_MULTIFILE
        assignment := a
        size := 0
        dev := DevUnion.multifile
          (name ++ List.replicate (multifileNameLen - name.length) 0)
          flags segment_size }

/-- `Device::new_raid` (device.rs lines 396-423): reject with
`MCO_E_ILLEGAL_PARAM` when `name.len() >= 64`. -/
def new_raid (a : Nat) (flags : Nat) (name : List Nat) (level : Int)
    (offset : Nat) : Result Device :=
  if raidNameLen ≤ name.length then
    Except.error (Error.Core mco_ret.MCO_E_ILLEGAL_PARAM)
  else
    Except.ok
      { type_ := mco_dev_type.MCO_MEMORY_RAID
        assignment := a
        size := 0
        dev := DevUnion.raid
          (name ++ List.replicate (raidNameLen - name.length) 0)
          flags level offset }

/-- `impl Drop for Device` (device.rs lines 436-443): deallocate the
backing block (of `size` bytes) iff the device kind is
`MCO_MEMORY_CONV`; all other kinds free nothing. -/
def drop (d : Device) : List MemEvent :=
  if d.type_ = mco_dev_type.MCO_MEMORY_CONV then
    [MemEvent.dealloc d.size]
  else
    []

/-- The contents of the conventional-memory backing block, when the
device is a conventional memory device. -/
def convContents (d : Device) : Option (List Nat) :=
  match d.dev with
  | DevUnion.conv mem _ => some mem
  | _ => none

/-- The stored fixed-size name field, for the device kinds that have
one. -/
def nameField (d : Device) : Option (List Nat) :=
  match d.dev with
  | DevUnion.named n _ _ => some n
  | DevUnion.file n _ => some n
  | DevUnion.multifile n _ _ => some n
  | DevUnion.raid n _ _ _ => some n
  | DevUnion.conv _ _ => none

end Device

/-! ### Runtime start flag (runtime.rs lines 622-683)

`Runtime::start` guards the native `mco_runtime_start` behind a
process-wide `AtomicBool` that is set on the first call and never reset,
not even by `Drop`. The native start status is a parameter; we count the
native start invocations as the tracked effect. -/

/-- The process-wide state: the `RUNTIME_STARTED` flag and the number of
`mco_runtime_start` calls that have been made. -/
structure RtState where
  started : Bool
  nativeStarts : Nat
deriving DecidableEq, Repr

/-- Outcome of `Runtime::start`: a `Runtime` value, or a panic. -/
inductive StartOutcome where
  | ok
  | panicked
deriving DecidableEq, Repr

namespace Runtime

/-- The initial process state: flag clear, no native starts. -/
def initState : RtState := ⟨false, 0⟩

/-- `Runtime::start` (runtime.rs lines 636-653): `fetch_or(true)` on the
flag; when it was clear, call `mco_runtime_start` (status `nativeRc`)
and panic unless it returns `MCO_S_OK`; when it was already set, panic
without touching the native runtime. -/
def start (st : RtState) (nativeRc : McoRetCode) : RtState × StartOutcome :=
  if st.started then
    ({ st with started := true }, StartOutcome.panicked)
  else
    let st1 : RtState := ⟨true, st.nativeStarts + 1⟩
    if nativeRc ≠ mco_ret.MCO_S_OK then
      (st1, StartOutcome.panicked)
    else
      (st1, StartOutcome.ok)

/-- `impl Drop for Runtime` (runtime.rs lines 676-683): calls the native
stop but deliberately does not reset the started flag, so the flag and
the native-start count are unchanged. -/
def dropRt (st : RtState) : RtState := st

end Runtime

/-- A process-level history of runtime operations. -/
inductive RtOp where
  | start (nativeRc : McoRetCode)
  | dropRt
deriving DecidableEq, Repr

/-- Run a sequence of `Runtime::start` / `Drop` operations. -/
def runRtOps : RtState → List RtOp → RtState
  | st, [] => st
  | st, RtOp.start rc :: ops => runRtOps (Runtime.start st rc).1 ops
  | st, RtOp.dropRt :: ops => runRtOps (Runtime.dropRt st) ops

/-! ### Database open / kill (database.rs lines 1166-1218)

Database names are `&str` values, modelled as lists of Unicode scalar
values; `str::is_ascii` holds iff every scalar value is below 128. Both
`open` and `kill` reject non-ASCII names with `MCO_E_ILLEGAL_PARAM`
before any native call; an interior NUL makes `CString::new(..).unwrap()`
panic, still before any native call. The native status code is a
parameter. -/

/-- Outcome of `Database::kill` / the native part of `Database::open`:
an early error, a panic in `CString::new(..).unwrap()`, or a native call
with the given name whose mapped result is `res`. -/
inductive NativeCallResult where
  | err (e : Error)
  | panicked
  | nativeCalled (name : List Nat) (res : Result Unit)
deriving Repr

/-- `str::is_ascii` on the modelled name. -/
def nameIsAscii (name : List Nat) : Bool :=
  name.all (fun c => c < 128)

namespace Database

/-- `Database::open` (database.rs lines 1166-1199), up to the native
`mco_db_open_dev` call: reject non-ASCII names with
`MCO_E_ILLEGAL_PARAM`; panic if `CString::new` fails on an interior
NUL; otherwise invoke the native open and map its status through
`result_from_code`. -/
def openCall (name : List Nat) (nativeRc : McoRetCode) : NativeCallResult :=
  if ¬ nameIsAscii name then
    NativeCallResult.err (Error.Core mco_ret.MCO_E_ILLEGAL_PARAM)
  else if name.contains 0 then
    NativeCallResult.panicked
  else
    NativeCallResult.nativeCalled name (result_from_code nativeRc)

/-- `Database::kill` (database.rs lines 1211-1218): same validation,
then the native `mco_db_kill`. -/
def kill (name : List Nat) (nativeRc : McoRetCode) : NativeCallResult :=
  if ¬ nameIsAscii name then
    NativeCallResult.err (Error.Core mco_ret.MCO_E_ILLEGAL_PARAM)
  else if name.contains 0 then
    NativeCallResult.panicked
  else
    NativeCallResult.nativeCalled name (result_from_code nativeRc)

end Database

/-! ## Theorems -/

/-- C8: every fallible operation returns either a core-status error or an
SQL-status error, never both: the core mapping yields `Ok` exactly when
the status code is 0 (`MCO_S_OK`) and `Error::Core` otherwise, the SQL
mapping yields `Ok` exactly when the status code is 0 (`SQL_OK`) and
`Error::Sql` otherwise, and a core status code is never wrapped as an
SQL error nor an SQL status code as a core error. -/
theorem c8_error_taxonomies :
    (∀ rc : McoRetCode,
      result_from_code rc =
        if rc = mco_ret.MCO_S_OK then Except.ok () else Except.error (Error.Core rc))
    ∧ (∀ rc : McoSqlStatusCode,
      sql_result_from_code rc =
        if rc = mcosql_error_code.SQL_OK then Except.ok () else Except.error (Error.Sql rc))
    ∧ (∀ rc rc2 : Nat, result_from_code rc ≠ Except.error (Error.Sql rc2))
    ∧ (∀ rc rc2 : Nat, sql_result_from_code rc ≠ Except.error (Error.Core rc2)) := by
  refine ⟨fun rc => ?_, fun rc => ?_, fun rc rc2 => ?_, fun rc rc2 => ?_⟩ <;>
    cases rc <;>
      simp [result_from_code, sql_result_from_code, mco_ret.MCO_S_OK,
        mcosql_error_code.SQL_OK]

/-- C3 counterexample: the claim asserts `int_part() = v / 10^p` for
every `p ∈ [0, 19]` and `|v| < 10^19`; at `v = 9000000000000000000`,
`p = 19` the code computes `int_part = -1` (the `usize` scale `10^19`
wraps to `-8446744073709551616` in the `as i64` cast) while
`v / 10^19 = 0`. -/
theorem c3_counterexample :
    (Numeric.new 9000000000000000000 19).map Numeric.int_part = some (-1)
    ∧ Int.tdiv 9000000000000000000 (10 ^ 19) = 0
    ∧ (-1 : Int) ≠ 0 := by
  refine ⟨?_, by decide, by decide⟩
  decide

/-- C3 (amended): for every `i64` value `v`, `Numeric::new(v, p)` returns
`Some` exactly when `p ≤ 19`, and then `value_scaled() = v`,
`precision() = p` and `fract_part() = |v| mod 10^p`; the identity
`int_part() = v / 10^p` holds for `p ≤ 18` (at `p = 19` the
`scale() as i64` cast wraps and the identity fails). -/
theorem c3_numeric_amended (v : Int) (p : Nat)
    (hv : -(2 ^ 63) ≤ v ∧ v < 2 ^ 63) :
    ((Numeric.new v p).isSome ↔ p ≤ 19)
    ∧ (∀ n, Numeric.new v p = some n →
        n.value_scaled = v ∧ n.precision = p
        ∧ (p ≤ 18 → n.int_part = Int.tdiv v (10 ^ p))
        ∧ n.fract_part = v.natAbs % 10 ^ p) := by
  constructor
  · unfold Numeric.new
    split <;> simp_all
  · intro n hn
    unfold Numeric.new at hn
    split at hn
    case isFalse => exact absurd hn (by simp)
    case isTrue hp =>
      have hn2 : n = ⟨v, p⟩ := by
        injection hn with h2
        exact h2.symm
      subst hn2
      refine ⟨rfl, rfl, ?_, ?_⟩
      · intro h18
        unfold Numeric.int_part usizeAsI64 Numeric.scale
        have hlt : 10 ^ p < 2 ^ 63 := by
          calc 10 ^ p ≤ 10 ^ 18 := Nat.pow_le_pow_right (by norm_num) h18
          _ < 2 ^ 63 := by norm_num
        have hmod : 10 ^ p % 2 ^ 64 = 10 ^ p :=
          Nat.mod_eq_of_lt (lt_trans hlt (by norm_num))
        simp only [hmod, hlt, if_pos]
        norm_cast
      · unfold Numeric.fract_part i64AbsAsU64 Numeric.scale
        have habs : v.natAbs ≤ 2 ^ 63 := by
          rcases hv with ⟨h1, h2⟩
          rcases le_or_lt 0 v with h0 | h0
          · have : v ≤ 2 ^ 63 := le_of_lt h2
            omega
          · have : -v ≤ 2 ^ 63 := by omega
            omega
        have h1 : v.natAbs % 2 ^ 64 = v.natAbs :=
          Nat.mod_eq_of_lt (lt_of_le_of_lt habs (by norm_num))
        have h2 : 10 ^ p % 2 ^ 64 = 10 ^ p := by
          have : (10 : Nat) ^ p ≤ 10 ^ 19 := Nat.pow_le_pow_right (by norm_num) hp
          exact Nat.mod_eq_of_lt (lt_of_le_of_lt this (by norm_num))
        rw [h1, h2]

/-- Witness for C3 (amended) at `v = 12345`, `p = 3` (the doc example of
`Numeric::new`): `int_part` is `12`. -/
theorem c3_numeric_amended_witness :
    Numeric.int_part ⟨12345, 3⟩ = Int.tdiv 12345 (10 ^ 3)
    ∧ Int.tdiv 12345 ((10 : Int) ^ 3) = 12 :=
  ⟨((c3_numeric_amended 12345 3 (by decide)).2 ⟨12345, 3⟩ (by decide)).2.2.1
      (by decide),
    by decide⟩

/-- C5: `Value::as_array`, `Value::as_sequence` and `Value::as_blob`
succeed exactly when the value's runtime type tag is `Array`, `Sequence`
or `Blob` respectively, each returning the same value reinterpreted in
place; on any other tag each returns the `INVALID_TYPE_CAST` SQL
error. -/
theorem c5_checked_casts (v : Value) (t : SqlType)
    (h : v.value_type = Except.ok t) :
    (v.as_array =
      if t = SqlType.array then Except.ok ⟨v⟩
      else Except.error (Error.Sql mcosql_error_code.INVALID_TYPE_CAST))
    ∧ (v.as_sequence =
      if t = SqlType.sequence then Except.ok ⟨v⟩
      else Except.error (Error.Sql mcosql_error_code.INVALID_TYPE_CAST))
    ∧ (v.as_blob =
      if t = SqlType.blob then Except.ok ⟨v⟩
      else Except.error (Error.Sql mcosql_error_code.INVALID_TYPE_CAST)) := by
  unfold Value.as_array Value.as_sequence Value.as_blob
  rw [h]
  cases t <;> simp

/-- Witness for C5 at a value whose native tag is `CT_ARRAY = 18`. -/
theorem c5_checked_casts_witness :
    Value.as_array ⟨0, 18⟩ = Except.ok ⟨⟨0, 18⟩⟩
    ∧ Value.as_blob ⟨0, 18⟩ =
        Except.error (Error.Sql mcosql_error_code.INVALID_TYPE_CAST) := by
  have h := c5_checked_casts ⟨0, 18⟩ SqlType.array rfl
  exact ⟨by simpa using h.1, by simpa using h.2.2⟩

/-- C4: a `Ref` releases its value to the owning allocator exactly once:
dropping releases iff both the value pointer and the allocator handle
are non-null (and names exactly that allocator and value), the value
pointer is nulled afterwards so a second drop releases nothing, and
defused clones (null allocator handle) never release. -/
theorem c4_ref_release_exactly_once :
    (∀ a v : Nat,
      (ValueRef.drop ⟨some a, some v⟩).2 = [RefEvent.release a v])
    ∧ (∀ r : ValueRef, (r.allocator = none ∨ r.ref_ = none) →
        (ValueRef.drop r).2 = [])
    ∧ (∀ r : ValueRef, (ValueRef.drop r).1.ref_ = none)
    ∧ (∀ r : ValueRef, (ValueRef.drop (ValueRef.drop r).1).2 = [])
    ∧ (∀ r : ValueRef, (ValueRef.drop r.defused_clone).2 = []) := by
  refine ⟨fun a v => rfl, ?_, fun r => rfl, ?_, ?_⟩
  · rintro ⟨al, rf⟩ h
    rcases h with h | h
    · simp only at h
      subst h
      cases rf <;> rfl
    · simp only at h
      subst h
      cases al <;> rfl
  · rintro ⟨al, rf⟩
    cases al <;> cases rf <;> rfl
  · rintro ⟨al, rf⟩
    cases rf <;> rfl

/-- Witness for C4: dropping a live `Ref` releases its value through its
allocator; dropping one whose allocator handle is null releases
nothing. -/
theorem c4_ref_release_witness :
    (ValueRef.drop ⟨some 1, some 2⟩).2 = [RefEvent.release 1 2]
    ∧ (ValueRef.drop ⟨none, some 2⟩).2 = [] :=
  ⟨c4_ref_release_exactly_once.1 1 2,
    c4_ref_release_exactly_once.2.1 ⟨none, some 2⟩ (Or.inl rfl)⟩

/-- Helper for C1: after a run of `advance` calls, if the cursor's
record handle is `some r` then either the trace's most recent
`Ok(true)` advance wrote `r`, or the trace contains no `Ok(true)`
advance at all and the starting cursor already held `r`. -/
theorem runAdvances_current_of_some (tr : List MoveNext) :
    ∀ (c : Cursor) (r : Nat),
      (Cursor.runAdvances c tr).rec_h = some r →
      mostRecentOkWrite tr = some (some r)
      ∨ (mostRecentOkWrite tr = none ∧ c.rec_h = some r) := by
  induction tr with
  | nil => exact fun c r h => Or.inr ⟨rfl, h⟩
  | cons n ns ih =>
    intro c r h
    have h1 : (Cursor.runAdvances (c.advance n).1 ns).rec_h = some r := h
    rcases ih (c.advance n).1 r h1 with h2 | ⟨h2, h3⟩
    · left
      simp [mostRecentOkWrite, h2]
    · left
      simp only [mostRecentOkWrite, h2]
      unfold Cursor.advance at h3
      by_cases hok : n.rc = mcosql_error_code.SQL_OK
      · simp only [hok, if_pos] at h3 ⊢
        simpa using h3
      · exfalso
        by_cases hnm : n.rc = mcosql_error_code.NO_MORE_ELEMENTS
        · rw [if_neg hok, if_pos hnm] at h3
          simp at h3
        · rw [if_neg hok, if_neg hnm] at h3
          simp at h3

/-- C1: for every cursor obtained from `DataSource::cursor`,
`current_record()` is `None` before the first `advance()` and after any
`advance()` that returned `Ok(false)`; whenever it is `Some`, the record
is the one written by the most recent `advance()` call that returned
`Ok(true)`, never a later one. -/
theorem c1_cursor_current_record :
    Cursor.current_record Cursor.new = none
    ∧ (∀ (c : Cursor) (n : MoveNext),
        (Cursor.advance c n).2 = Except.ok false →
        Cursor.current_record (Cursor.advance c n).1 = none)
    ∧ (∀ (tr : List MoveNext) (r : Nat),
        Cursor.current_record (Cursor.runAdvances Cursor.new tr) = some r →
        mostRecentOkWrite tr = some (some r)) := by
  refine ⟨rfl, ?_, ?_⟩
  · intro c n h
    unfold Cursor.advance at h ⊢
    by_cases hok : n.rc = mcosql_error_code.SQL_OK
    · rw [if_pos hok] at h
      simp at h
    · rw [if_neg hok] at h ⊢
      by_cases hnm : n.rc = mcosql_error_code.NO_MORE_ELEMENTS
      · rw [if_pos hnm]
        rfl
      · rw [if_neg hnm] at h
        simp at h
  · intro tr r h
    rcases runAdvances_current_of_some tr Cursor.new r h with h2 | ⟨_, h3⟩
    · exact h2
    · exact absurd h3 (by simp [Cursor.new])

/-- Witness for C1: a trace of one successful advance writing record 5,
then one `Ok(false)` advance, then another successful advance writing
record 7: the current record is 7, the most recent `Ok(true)` write. -/
theorem c1_cursor_witness :
    mostRecentOkWrite [⟨0, some 5⟩, ⟨1, none⟩, ⟨0, some 7⟩] = some (some 7)
    ∧ Cursor.current_record (Cursor.advance Cursor.new ⟨1, none⟩).1 = none :=
  ⟨c1_cursor_current_record.2.2 [⟨0, some 5⟩, ⟨1, none⟩, ⟨0, some 7⟩] 7 rfl,
    c1_cursor_current_record.2.1 Cursor.new ⟨1, none⟩ rfl⟩

/-- C2: dropping a `Transaction` whose handle has not been nulled by
`commit()`/`rollback()` finalizes it with `commit = false` (native
rollback, then release) and nulls the handle; `commit()` and
`rollback()` null the handle, and dropping a transaction whose handle is
already null performs no native finalization. -/
theorem c2_transaction_drop_rolls_back :
    (∀ (h : Nat) (rcOp rcRel : McoSqlStatusCode),
      Transaction.drop ⟨some h⟩ rcOp rcRel =
        (⟨none⟩,
          [TxEvent.rollbackNative (some h), TxEvent.releaseNative (some h)]))
    ∧ (∀ rcOp rcRel : McoSqlStatusCode,
        Transaction.drop ⟨none⟩ rcOp rcRel = (⟨none⟩, []))
    ∧ (∀ (t : Transaction) (rcOp rcRel : McoSqlStatusCode),
        (t.commit rcOp rcRel).1.h = none ∧ (t.rollback rcOp rcRel).1.h = none) := by
  exact ⟨fun h rcOp rcRel => rfl, fun rcOp rcRel => rfl,
    fun t rcOp rcRel => ⟨rfl, rfl⟩⟩

/-- C6: each device constructor taking a name or path
(`new_mem_named`, `new_file`, `new_multifile`, `new_raid`) fails with
the `MCO_E_ILLEGAL_PARAM` core error when the name does not fit the
fixed-size name field of its descriptor (64, 256, 64 and 64 bytes
respectively, NUL terminator included), and copies a fitting name in
full into the zero-padded field, never truncating it. -/
theorem c6_device_name_bounds :
    (∀ (a s : Nat) (name : List Nat) (flags hint : Nat),
      (namedNameLen ≤ name.length →
        Device.new_mem_named a s name flags hint =
          Except.error (Error.Core mco_ret.MCO_E_ILLEGAL_PARAM))
      ∧ (name.length < namedNameLen →
        ∃ d, Device.new_mem_named a s name flags hint = Except.ok d
          ∧ d.nameField =
              some (name ++ List.replicate (namedNameLen - name.length) 0)))
    ∧ (∀ (a flags : Nat) (name : List Nat),
      (fileNameLen ≤ name.length →
        Device.new_file a flags name =
          Except.error (Error.Core mco_ret.MCO_E_ILLEGAL_PARAM))
      ∧ (name.length < fileNameLen →
        ∃ d, Device.new_file a flags name = Except.ok d
          ∧ d.nameField =
              some (name ++ List.replicate (fileNameLen - name.length) 0)))
    ∧ (∀ (a flags : Nat) (name : List Nat) (seg : Nat),
      (multifileNameLen ≤ name.length →
        Device.new_multifile a flags name seg =
          Except.error (Error.Core mco_ret.MCO_E_ILLEGAL_PARAM))
      ∧ (name.length < multifileNameLen →
        ∃ d, Device.new_multifile a flags name seg = Except.ok d
          ∧ d.nameField =
              some (name ++ List.replicate (multifileNameLen - name.length) 0)))
    ∧ (∀ (a flags : Nat) (name : List Nat) (level : Int) (off : Nat),
      (raidNameLen ≤ name.length →
        Device.new_raid a flags name level off =
          Except.error (Error.Core mco_ret.MCO_E_ILLEGAL_PARAM))
      ∧ (name.length < raidNameLen →
        ∃ d, Device.new_raid a flags name level off = Except.ok d
          ∧ d.nameField =
              some (name ++ List.replicate (raidNameLen - name.length) 0))) := by
  refine ⟨fun a s name flags hint => ⟨fun h => ?_, fun h => ?_⟩,
    fun a flags name => ⟨fun h => ?_, fun h => ?_⟩,
    fun a flags name seg => ⟨fun h => ?_, fun h => ?_⟩,
    fun a flags name level off => ⟨fun h => ?_, fun h => ?_⟩⟩
  · unfold Device.new_mem_named
    rw [if_pos h]
  · unfold Device.new_mem_named
    rw [if_neg (Nat.not_le.mpr h)]
    exact ⟨_, rfl, rfl⟩
  · unfold Device.new_file
    rw [if_pos h]
  · unfold Device.new_file
    rw [if_neg (Nat.not_le.mpr h)]
    exact ⟨_, rfl, rfl⟩
  · unfold Device.new_multifile
    rw [if_pos h]
  · unfold Device.new_multifile
    rw [if_neg (Nat.not_le.mpr h)]
    exact ⟨_, rfl, rfl⟩
  · unfold Device.new_raid
    rw [if_pos h]
  · unfold Device.new_raid
    rw [if_neg (Nat.not_le.mpr h)]
    exact ⟨_, rfl, rfl⟩

/-- Witness for C6: a 64-byte name is rejected by `new_mem_named` while
the two-byte name `[97, 98]` is stored in full, zero-padded to 64
bytes. -/
theorem c6_device_name_bounds_witness :
    Device.new_mem_named 0 0 (List.replicate 64 97) 0 0 =
      Except.error (Error.Core mco_ret.MCO_E_ILLEGAL_PARAM)
    ∧ ∃ d, Device.new_mem_named 0 0 [97, 98] 0 0 = Except.ok d
        ∧ d.nameField = some ([97, 98] ++ List.replicate 62 0) :=
  ⟨(c6_device_name_bounds.1 0 0 (List.replicate 64 97) 0 0).1 (by simp [namedNameLen]),
    (c6_device_name_bounds.1 0 0 [97, 98] 0 0).2 (by simp [namedNameLen])⟩

/-- C7 counterexample: the claim says the backing memory handed out by
`Device::new_mem_conv` is zero-initialized; the constructor calls
`std::alloc::alloc` (not `alloc_zeroed`) and passes the block through
untouched, so when the raw allocator hands back a block whose single
byte is 7, the device's backing byte is 7, not 0. -/
theorem c7_counterexample :
    (Device.new_mem_conv 0 1 (some [7])).toOption.bind Device.convContents =
      some [7]
    ∧ some [7] ≠ some (List.replicate 1 0) := by
  exact ⟨rfl, by decide⟩

/-- C7 (amended): `Device::new_mem_conv(a, s)` allocates `s` bytes of
real backing memory with `std::alloc::alloc` at creation — without
zero-initializing it — failing with the `MCO_E_NOMEM` core error when
the allocation returns null; dropping the device releases that memory
exactly once, and no other device kind frees memory on drop. -/
theorem c7_mem_conv_alloc_and_drop :
    (∀ a s : Nat,
      Device.new_mem_conv a s none = Except.error (Error.Core mco_ret.MCO_E_NOMEM))
    ∧ (∀ (a s : Nat) (bytes : List Nat),
      Device.new_mem_conv a s (some bytes) =
        Except.ok ⟨mco_dev_type.MCO_MEMORY_CONV, a, s, DevUnion.conv bytes 0⟩)
    ∧ (∀ (a s : Nat) (bytes : List Nat) (d : Device),
      Device.new_mem_conv a s (some bytes) = Except.ok d →
        Device.drop d = [MemEvent.dealloc s])
    ∧ (∀ d : Device, d.type_ ≠ mco_dev_type.MCO_MEMORY_CONV →
        Device.drop d = []) := by
  refine ⟨fun a s => rfl, fun a s bytes => rfl, ?_, ?_⟩
  · intro a s bytes d h
    have hd : d = ⟨mco_dev_type.MCO_MEMORY_CONV, a, s, DevUnion.conv bytes 0⟩ := by
      injection h with h2
      exact h2.symm
    subst hd
    rfl
  · intro d h
    unfold Device.drop
    rw [if_neg h]

/-- Witness for C7 (amended): a successful one-byte allocation yields a
conventional memory device whose drop deallocates once, and a file
device (kind `MCO_MEMORY_FILE = 3`, not conventional memory) frees
nothing on drop. -/
theorem c7_mem_conv_witness :
    Device.drop ⟨mco_dev_type.MCO_MEMORY_CONV, 0, 1, DevUnion.conv [7] 0⟩ =
      [MemEvent.dealloc 1]
    ∧ Device.drop ⟨mco_dev_type.MCO_MEMORY_FILE, 0, 0,
        DevUnion.file (List.replicate 256 0) 0⟩ = [] :=
  ⟨c7_mem_conv_alloc_and_drop.2.2.1 0 1 [7] _ rfl,
    c7_mem_conv_alloc_and_drop.2.2.2 _ (by decide)⟩

/-- Helper for C9: from any state satisfying the start-flag invariant,
running any sequence of `Runtime::start` / `Drop` operations makes at
most one native `mco_runtime_start` call in total. -/
theorem runRtOps_at_most_one_start (ops : List RtOp) :
    ∀ st : RtState,
      st.nativeStarts ≤ 1 → (st.started = false → st.nativeStarts = 0) →
      (runRtOps st ops).nativeStarts ≤ 1 := by
  induction ops with
  | nil => exact fun st h1 h2 => h1
  | cons op ops ih =>
    intro st h1 h2
    cases op with
    | start rc =>
      show (runRtOps (Runtime.start st rc).1 ops).nativeStarts ≤ 1
      unfold Runtime.start
      by_cases hs : st.started
      · rw [if_pos hs]
        exact ih _ h1 (by simp)
      · rw [if_neg hs]
        have h0 : st.nativeStarts = 0 := h2 (by simpa using hs)
        split <;>
          exact ih ⟨true, st.nativeStarts + 1⟩
            (by show st.nativeStarts + 1 ≤ 1; omega) (by simp)
    | dropRt =>
      exact ih st h1 h2

/-- C9: `Runtime::start` succeeds at most once per process: the first
call sets the process-wide flag, makes the one native start call and
panics if that call fails; every later call panics without touching the
native runtime, and dropping a `Runtime` leaves the flag set, so no
sequence of start/drop operations ever makes a second native start. -/
theorem c9_runtime_start_once :
    (∀ (n : Nat) (rc : McoRetCode),
      Runtime.start ⟨false, n⟩ rc =
        (⟨true, n + 1⟩,
          if rc = mco_ret.MCO_S_OK then StartOutcome.ok else StartOutcome.panicked))
    ∧ (∀ (n : Nat) (rc : McoRetCode),
      Runtime.start ⟨true, n⟩ rc = (⟨true, n⟩, StartOutcome.panicked))
    ∧ (∀ st : RtState, Runtime.dropRt st = st)
    ∧ (∀ ops : List RtOp,
        (runRtOps Runtime.initState ops).nativeStarts ≤ 1) := by
  refine ⟨?_, fun n rc => rfl, fun st => rfl, ?_⟩
  · intro n rc
    unfold Runtime.start
    by_cases hrc : rc = mco_ret.MCO_S_OK <;> simp [hrc]
  · intro ops
    exact runRtOps_at_most_one_start ops Runtime.initState (by simp [Runtime.initState])
      (fun _ => rfl)

/-- C10: `Database::open` and `Database::kill` reject any database name
containing a non-ASCII character with the `MCO_E_ILLEGAL_PARAM` core
error before the native engine is invoked, and whenever the native
open/kill call is made, the name passed to it is the caller's name and
is pure ASCII. -/
theorem c10_ascii_database_names :
    (∀ (name : List Nat) (rc : McoRetCode), nameIsAscii name = false →
      Database.openCall name rc =
          NativeCallResult.err (Error.Core mco_ret.MCO_E_ILLEGAL_PARAM)
        ∧ Database.kill name rc =
            NativeCallResult.err (Error.Core mco_ret.MCO_E_ILLEGAL_PARAM))
    ∧ (∀ (name : List Nat) (rc : McoRetCode) (n : List Nat) (res : Result Unit),
        Database.openCall name rc = NativeCallResult.nativeCalled n res →
        n = name ∧ nameIsAscii name = true)
    ∧ (∀ (name : List Nat) (rc : McoRetCode) (n : List Nat) (res : Result Unit),
        Database.kill name rc = NativeCallResult.nativeCalled n res →
        n = name ∧ nameIsAscii name = true) := by
  refine ⟨?_, ?_, ?_⟩
  · intro name rc h
    constructor <;> [unfold Database.openCall; unfold Database.kill] <;>
      rw [if_pos (by simp [h])]
  · intro name rc n res h
    unfold Database.openCall at h
    by_cases ha : nameIsAscii name
    · rw [if_neg (by simp [ha])] at h
      by_cases hz : name.contains 0
      · rw [if_pos hz] at h
        exact absurd h (by simp)
      · rw [if_neg hz] at h
        injection h with h1 h2
        exact ⟨h1.symm, ha⟩
    · rw [if_pos (by simpa using ha)] at h
      exact absurd h (by simp)
  · intro name rc n res h
    unfold Database.kill at h
    by_cases ha : nameIsAscii name
    · rw [if_neg (by simp [ha])] at h
      by_cases hz : name.contains 0
      · rw [if_pos hz] at h
        exact absurd h (by simp)
      · rw [if_neg hz] at h
        injection h with h1 h2
        exact ⟨h1.symm, ha⟩
    · rw [if_pos (by simpa using ha)] at h
      exact absurd h (by simp)

/-- Witness for C10: the name `[200]` (a non-ASCII scalar) is rejected
by `kill` with `MCO_E_ILLEGAL_PARAM`, and the ASCII name `[97]` reaches
the native call as-is. -/
theorem c10_ascii_database_names_witness :
    Database.kill [200] 0 =
      NativeCallResult.err (Error.Core mco_ret.MCO_E_ILLEGAL_PARAM)
    ∧ nameIsAscii [97] = true :=
  ⟨(c10_ascii_database_names.1 [200] 0 (by decide)).2,
    (c10_ascii_database_names.2.1 [97] 0 [97] (Except.ok ()) rfl).2⟩

end ExtremeDB
